import Mathlib

/-!
Shallow embedding of the core storage layer of a vector-database segment:
the polymorphic vector storage (traits `VectorStorage`, `DenseVectorStorage`,
the dispatch enum `VectorStorageEnum`) from
`lib/segment/src/vector_storage/vector_storage_base.rs`, and the full-text
index builder (`FullTextMmapIndexBuilder`) from
`lib/segment/src/index/field_index/full_text_index/mmap_text_index.rs`.

Conventions of the embedding:
* `PointOffsetType` (u32) and `usize` are modeled as `Nat`; none of the
  modeled operations perform wrapping arithmetic, and Rust's
  `saturating_sub` coincides with truncated `Nat` subtraction.
* Fallible Rust functions returning `OperationResult<T>` are modeled as
  `Except OperationError T`; a `panic!`/`unreachable!` outcome is modeled
  as `Option.none`.
* Methods taking `&mut self` are modeled by state passing; methods taking
  `&self` cannot change the logical state and are modeled as pure
  functions of the state (paired with the unchanged state where the claim
  speaks about state preservation).
* Hardware counters (`HardwareCounterCell`) are accounting-only and carry
  no semantic content; they are omitted.
* The enum variants guarded by `#[cfg(feature = "rocksdb")]` (legacy
  `Simple*` backings) and `#[cfg(test)]` are compiled out in the default
  feature configuration and are omitted from the embedding, matching the
  specification's scope.
* f32 values are modeled as `Rat`; the only float literal appearing in the
  modeled code is the constant `1.0`.
-/

/-- Operation error, standing for `OperationError` of the repository.
Only its existence matters for the modeled code paths. -/
inductive OperationError where
  | service (description : String)
deriving DecidableEq, Repr

/-- Result type of fallible storage operations (`OperationResult<T>`). -/
abbrev OperationResult (α : Type) := Except OperationError α

/-! ## The `VectorStorage` trait: counts

The trait is modeled by the data its default methods consume: the
`total_vector_count` and `deleted_vector_count` accessors implemented by
every backing. -/

/-- State visible through the `VectorStorage` trait counting methods:
`total_vector_count()` (includes soft-deleted vectors) and
`deleted_vector_count()` (maintained bitmap count, possibly stale after a
crash before flush, hence possibly exceeding the total). -/
structure VectorStorage where
  total_vector_count : Nat
  deleted_vector_count : Nat
deriving DecidableEq, Repr

/-- Default trait method `VectorStorage::available_vector_count`:
`self.total_vector_count().saturating_sub(self.deleted_vector_count())`.
Truncated `Nat` subtraction is exactly `saturating_sub`. -/
def VectorStorage.available_vector_count (s : VectorStorage) : Nat :=
  s.total_vector_count - s.deleted_vector_count

/-! ## The `DenseVectorStorage<T>` trait -/

/-- Byte size of a vector element type, `std::mem::size_of::<T>()`. -/
class ElemSize (T : Type) where
  bytes : Nat

/-- Element type `VectorElementType` (f32), modeled as a rational. -/
structure VectorElementType where
  val : Rat
deriving DecidableEq, Repr

/-- Element type `VectorElementTypeByte` (u8). -/
structure VectorElementTypeByte where
  val : Fin 256
deriving DecidableEq, Repr

/-- Element type `VectorElementTypeHalf` (f16), modeled as a rational. -/
structure VectorElementTypeHalf where
  val : Rat
deriving DecidableEq, Repr

instance : ElemSize VectorElementType := ⟨4⟩

instance : ElemSize VectorElementTypeByte := ⟨1⟩

instance : ElemSize VectorElementTypeHalf := ⟨2⟩

/-- State visible through the `DenseVectorStorage<T>` trait: the base
`VectorStorage` counts plus `vector_dim()` and the per-key accessor
`get_dense(key)` returning a slice of length `vector_dim`. -/
structure DenseVectorStorage (T : Type) extends VectorStorage where
  vector_dim : Nat
  get_dense : Nat → List T

/-- Modelled from the spec: `maybe_uninit_fill_from` (in the `common`
crate, not among the provided sources) fills a caller-provided buffer of
length `buf_len` from an iterator and returns the initialized prefix,
i.e. the first `min buf_len (length source)` items of the iterator. -/
def maybe_uninit_fill_from (buf_len : Nat) (source : List α) : List α :=
  source.take buf_len

/-- Default trait method `DenseVectorStorage::get_dense_batch`:
`maybe_uninit_fill_from(vectors, keys.iter().map(|key| self.get_dense(*key))).0`
where `vectors` is a caller buffer of length `buf_len`. -/
def DenseVectorStorage.get_dense_batch (s : DenseVectorStorage T)
    (keys : List Nat) (buf_len : Nat) : List (List T) :=
  maybe_uninit_fill_from buf_len (keys.map s.get_dense)

/-- Specification-side definition of the batch read, following the words
of the spec: "`get_dense_batch(K)` yields slices pointwise equal to
`get_dense(k)` for k in K". -/
def DenseVectorStorage.get_dense_batch_spec (s : DenseVectorStorage T)
    (keys : List Nat) : List (List T) :=
  keys.map s.get_dense

/-- Default trait method
`DenseVectorStorage::size_of_available_vectors_in_bytes`:
`self.available_vector_count() * self.vector_dim() * std::mem::size_of::<T>()`. -/
def DenseVectorStorage.size_of_available_vectors_in_bytes [ElemSize T]
    (s : DenseVectorStorage T) : Nat :=
  s.toVectorStorage.available_vector_count * s.vector_dim * ElemSize.bytes T

/-! ## `VectorStorageEnum` and its sub-storages

The internals of the sub-storage types (`VolatileDenseVectorStorage`,
`MemmapDenseVectorStorage`, ...) live in files that are not among the
provided sources; each is modeled as a record of the results of exactly
the methods that the `VectorStorageEnum` dispatch invokes on it in the
modeled functions (`vector_dim`, `size_of_available_vectors_in_bytes`,
`multi_vector_config`, `populate`, `clear_cache`). -/

/-- Modelled from the spec: `MultiVectorConfig` is the configuration of a
multi-dense storage; its fields are not described by the provided
sources, so it is modeled as an abstract value. -/
structure MultiVectorConfig where
  raw : Nat
deriving DecidableEq, Repr

/-- Sparse vector (`sparse::common::sparse_vector::SparseVector`):
parallel index and value lists. -/
structure SparseVector where
  indices : List Nat
  values : List Rat
deriving DecidableEq, Repr

/-- Rust `SparseVector::default()`: empty index and value lists. -/
def SparseVector.default : SparseVector :=
  { indices := [], values := [] }

/-- Modelled from the spec: `MultiDenseVectorInternal::placeholder(dim)`
(in `data_types/vectors.rs`, not among the provided sources) builds a
placeholder multi-dense vector of the configured inner dimension; the
model records that dimension. -/
structure MultiDenseVectorInternal where
  dim : Nat
deriving DecidableEq, Repr

/-- Placeholder multi-dense vector of the given inner dimension. -/
def MultiDenseVectorInternal.placeholder (dim : Nat) : MultiDenseVectorInternal :=
  { dim := dim }

/-- `VectorInternal`: a vector value of one of the three shapes. The
`From` conversions used in `default_vector` are the constructors. -/
inductive VectorInternal where
  | dense (v : List Rat)
  | sparse (v : SparseVector)
  | multiDense (v : MultiDenseVectorInternal)
deriving DecidableEq, Repr

/-- Sub-storage `VolatileDenseVectorStorage<T>` as seen by the enum
dispatch. -/
structure VolatileDenseVectorStorage where
  vector_dim : Nat
  size_of_available_vectors_in_bytes : Nat
deriving DecidableEq, Repr

/-- Sub-storage `MemmapDenseVectorStorage<T>` as seen by the enum
dispatch; `populateResult` and `clearCacheResult` are the outcomes of the
delegated `populate()` / `clear_cache()` calls. -/
structure MemmapDenseVectorStorage where
  vector_dim : Nat
  size_of_available_vectors_in_bytes : Nat
  populateResult : OperationResult Unit
  clearCacheResult : OperationResult Unit

/-- Sub-storage `AppendableMmapDenseVectorStorage<T, S>` (with `S` either
`ChunkedMmapVectors<T>` or `InRamPersistedVectors<T>`; the enum
constructor records which) as seen by the enum dispatch. -/
structure AppendableMmapDenseVectorStorage where
  vector_dim : Nat
  size_of_available_vectors_in_bytes : Nat
  populateResult : OperationResult Unit
  clearCacheResult : OperationResult Unit

/-- Sub-storage `VolatileSparseVectorStorage` as seen by the enum
dispatch. -/
structure VolatileSparseVectorStorage where
  size_of_available_vectors_in_bytes : Nat

/-- Sub-storage `MmapSparseVectorStorage` as seen by the enum dispatch.
It exposes no aggregate byte size (the corresponding dispatch arm is
`unreachable!`). -/
structure MmapSparseVectorStorage where
  populateResult : OperationResult Unit
  clearCacheResult : OperationResult Unit

/-- Sub-storage `VolatileMultiDenseVectorStorage<T>` as seen by the enum
dispatch. -/
structure VolatileMultiDenseVectorStorage where
  vector_dim : Nat
  size_of_available_vectors_in_bytes : Nat
  multi_vector_config : MultiVectorConfig

/-- Sub-storage `AppendableMmapMultiDenseVectorStorage<T, S, O>` (with
`S`, `O` either both chunked-mmap or both in-RAM-persisted; the enum
constructor records which) as seen by the enum dispatch. -/
structure AppendableMmapMultiDenseVectorStorage where
  vector_dim : Nat
  size_of_available_vectors_in_bytes : Nat
  multi_vector_config : MultiVectorConfig
  populateResult : OperationResult Unit
  clearCacheResult : OperationResult Unit

/-- The tagged variant `VectorStorageEnum` over all backings and element
types, restricted to the variants present in the default feature
configuration (the `rocksdb`-gated `*Simple*` and the `test`-gated
`*Volatile{Byte,Half}` variants are compiled out). -/
inductive VectorStorageEnum where
  | DenseVolatile (v : VolatileDenseVectorStorage)
  | DenseMemmap (v : MemmapDenseVectorStorage)
  | DenseMemmapByte (v : MemmapDenseVectorStorage)
  | DenseMemmapHalf (v : MemmapDenseVectorStorage)
  | DenseAppendableMemmap (v : AppendableMmapDenseVectorStorage)
  | DenseAppendableMemmapByte (v : AppendableMmapDenseVectorStorage)
  | DenseAppendableMemmapHalf (v : AppendableMmapDenseVectorStorage)
  | DenseAppendableInRam (v : AppendableMmapDenseVectorStorage)
  | DenseAppendableInRamByte (v : AppendableMmapDenseVectorStorage)
  | DenseAppendableInRamHalf (v : AppendableMmapDenseVectorStorage)
  | SparseVolatile (v : VolatileSparseVectorStorage)
  | SparseMmap (v : MmapSparseVectorStorage)
  | MultiDenseVolatile (v : VolatileMultiDenseVectorStorage)
  | MultiDenseAppendableMemmap (v : AppendableMmapMultiDenseVectorStorage)
  | MultiDenseAppendableMemmapByte (v : AppendableMmapMultiDenseVectorStorage)
  | MultiDenseAppendableMemmapHalf (v : AppendableMmapMultiDenseVectorStorage)
  | MultiDenseAppendableInRam (v : AppendableMmapMultiDenseVectorStorage)
  | MultiDenseAppendableInRamByte (v : AppendableMmapMultiDenseVectorStorage)
  | MultiDenseAppendableInRamHalf (v : AppendableMmapMultiDenseVectorStorage)

/-- `VectorStorageEnum::try_multi_vector_config`: `None` for dense and
sparse variants, `Some(s.multi_vector_config())` for multi-dense variants. -/
def VectorStorageEnum.try_multi_vector_config :
    VectorStorageEnum → Option MultiVectorConfig
  | .DenseVolatile _ => none
  | .DenseMemmap _ => none
  | .DenseMemmapByte _ => none
  | .DenseMemmapHalf _ => none
  | .DenseAppendableMemmap _ => none
  | .DenseAppendableMemmapByte _ => none
  | .DenseAppendableMemmapHalf _ => none
  | .DenseAppendableInRam _ => none
  | .DenseAppendableInRamByte _ => none
  | .DenseAppendableInRamHalf _ => none
  | .SparseVolatile _ => none
  | .SparseMmap _ => none
  | .MultiDenseVolatile s => some s.multi_vector_config
  | .MultiDenseAppendableMemmap s => some s.multi_vector_config
  | .MultiDenseAppendableMemmapByte s => some s.multi_vector_config
  | .MultiDenseAppendableMemmapHalf s => some s.multi_vector_config
  | .MultiDenseAppendableInRam s => some s.multi_vector_config
  | .MultiDenseAppendableInRamByte s => some s.multi_vector_config
  | .MultiDenseAppendableInRamHalf s => some s.multi_vector_config

/-- `VectorStorageEnum::default_vector`: an all-ones dense vector
`vec![1.0; v.vector_dim()]` for dense variants, `SparseVector::default()`
for sparse variants, and
`MultiDenseVectorInternal::placeholder(v.vector_dim())` for multi-dense
variants. -/
def VectorStorageEnum.default_vector : VectorStorageEnum → VectorInternal
  | .DenseVolatile v => .dense (List.replicate v.vector_dim 1)
  | .DenseMemmap v => .dense (List.replicate v.vector_dim 1)
  | .DenseMemmapByte v => .dense (List.replicate v.vector_dim 1)
  | .DenseMemmapHalf v => .dense (List.replicate v.vector_dim 1)
  | .DenseAppendableMemmap v => .dense (List.replicate v.vector_dim 1)
  | .DenseAppendableMemmapByte v => .dense (List.replicate v.vector_dim 1)
  | .DenseAppendableMemmapHalf v => .dense (List.replicate v.vector_dim 1)
  | .DenseAppendableInRam v => .dense (List.replicate v.vector_dim 1)
  | .DenseAppendableInRamByte v => .dense (List.replicate v.vector_dim 1)
  | .DenseAppendableInRamHalf v => .dense (List.replicate v.vector_dim 1)
  | .SparseVolatile _ => .sparse SparseVector.default
  | .SparseMmap _ => .sparse SparseVector.default
  | .MultiDenseVolatile v => .multiDense (MultiDenseVectorInternal.placeholder v.vector_dim)
  | .MultiDenseAppendableMemmap v =>
      .multiDense (MultiDenseVectorInternal.placeholder v.vector_dim)
  | .MultiDenseAppendableMemmapByte v =>
      .multiDense (MultiDenseVectorInternal.placeholder v.vector_dim)
  | .MultiDenseAppendableMemmapHalf v =>
      .multiDense (MultiDenseVectorInternal.placeholder v.vector_dim)
  | .MultiDenseAppendableInRam v =>
      .multiDense (MultiDenseVectorInternal.placeholder v.vector_dim)
  | .MultiDenseAppendableInRamByte v =>
      .multiDense (MultiDenseVectorInternal.placeholder v.vector_dim)
  | .MultiDenseAppendableInRamHalf v =>
      .multiDense (MultiDenseVectorInternal.placeholder v.vector_dim)

/-- `VectorStorageEnum::size_of_available_vectors_in_bytes`: delegates to
the sub-storage for every variant except `SparseMmap`, whose arm is
`unreachable!("Mmap sparse storage does not know its total size, ...")`;
the panic is modeled as `none`. -/
def VectorStorageEnum.size_of_available_vectors_in_bytes :
    VectorStorageEnum → Option Nat
  | .DenseVolatile v => some v.size_of_available_vectors_in_bytes
  | .DenseMemmap v => some v.size_of_available_vectors_in_bytes
  | .DenseMemmapByte v => some v.size_of_available_vectors_in_bytes
  | .DenseMemmapHalf v => some v.size_of_available_vectors_in_bytes
  | .DenseAppendableMemmap v => some v.size_of_available_vectors_in_bytes
  | .DenseAppendableMemmapByte v => some v.size_of_available_vectors_in_bytes
  | .DenseAppendableMemmapHalf v => some v.size_of_available_vectors_in_bytes
  | .DenseAppendableInRam v => some v.size_of_available_vectors_in_bytes
  | .DenseAppendableInRamByte v => some v.size_of_available_vectors_in_bytes
  | .DenseAppendableInRamHalf v => some v.size_of_available_vectors_in_bytes
  | .SparseVolatile v => some v.size_of_available_vectors_in_bytes
  | .SparseMmap _ => none
  | .MultiDenseVolatile v => some v.size_of_available_vectors_in_bytes
  | .MultiDenseAppendableMemmap v => some v.size_of_available_vectors_in_bytes
  | .MultiDenseAppendableMemmapByte v => some v.size_of_available_vectors_in_bytes
  | .MultiDenseAppendableMemmapHalf v => some v.size_of_available_vectors_in_bytes
  | .MultiDenseAppendableInRam v => some v.size_of_available_vectors_in_bytes
  | .MultiDenseAppendableInRamByte v => some v.size_of_available_vectors_in_bytes
  | .MultiDenseAppendableInRamHalf v => some v.size_of_available_vectors_in_bytes

/-- `VectorStorageEnum::populate`: for non-mmap (volatile) variants the
match arm is empty (`// Can't populate as it is not mmap`) and the
function returns `Ok(())`; for mmap-backed and in-RAM-persisted variants
it runs `vs.populate()?` and then returns `Ok(())`. The method takes
`&self`; the state is returned unchanged alongside the unit result. -/
def VectorStorageEnum.populate (s : VectorStorageEnum) :
    OperationResult (Unit × VectorStorageEnum) :=
  match s with
  | .DenseVolatile _ => .ok ((), s)
  | .DenseMemmap vs => vs.populateResult.map (fun _ => ((), s))
  | .DenseMemmapByte vs => vs.populateResult.map (fun _ => ((), s))
  | .DenseMemmapHalf vs => vs.populateResult.map (fun _ => ((), s))
  | .DenseAppendableMemmap vs => vs.populateResult.map (fun _ => ((), s))
  | .DenseAppendableMemmapByte vs => vs.populateResult.map (fun _ => ((), s))
  | .DenseAppendableMemmapHalf vs => vs.populateResult.map (fun _ => ((), s))
  | .DenseAppendableInRam vs => vs.populateResult.map (fun _ => ((), s))
  | .DenseAppendableInRamByte vs => vs.populateResult.map (fun _ => ((), s))
  | .DenseAppendableInRamHalf vs => vs.populateResult.map (fun _ => ((), s))
  | .SparseVolatile _ => .ok ((), s)
  | .SparseMmap vs => vs.populateResult.map (fun _ => ((), s))
  | .MultiDenseVolatile _ => .ok ((), s)
  | .MultiDenseAppendableMemmap vs => vs.populateResult.map (fun _ => ((), s))
  | .MultiDenseAppendableMemmapByte vs => vs.populateResult.map (fun _ => ((), s))
  | .MultiDenseAppendableMemmapHalf vs => vs.populateResult.map (fun _ => ((), s))
  | .MultiDenseAppendableInRam vs => vs.populateResult.map (fun _ => ((), s))
  | .MultiDenseAppendableInRamByte vs => vs.populateResult.map (fun _ => ((), s))
  | .MultiDenseAppendableInRamHalf vs => vs.populateResult.map (fun _ => ((), s))

/-- `VectorStorageEnum::clear_cache`: same dispatch shape as `populate`,
delegating `vs.clear_cache()?` for mmap-backed and in-RAM-persisted
variants and returning `Ok(())` directly for volatile variants. -/
def VectorStorageEnum.clear_cache (s : VectorStorageEnum) :
    OperationResult (Unit × VectorStorageEnum) :=
  match s with
  | .DenseVolatile _ => .ok ((), s)
  | .DenseMemmap vs => vs.clearCacheResult.map (fun _ => ((), s))
  | .DenseMemmapByte vs => vs.clearCacheResult.map (fun _ => ((), s))
  | .DenseMemmapHalf vs => vs.clearCacheResult.map (fun _ => ((), s))
  | .DenseAppendableMemmap vs => vs.clearCacheResult.map (fun _ => ((), s))
  | .DenseAppendableMemmapByte vs => vs.clearCacheResult.map (fun _ => ((), s))
  | .DenseAppendableMemmapHalf vs => vs.clearCacheResult.map (fun _ => ((), s))
  | .DenseAppendableInRam vs => vs.clearCacheResult.map (fun _ => ((), s))
  | .DenseAppendableInRamByte vs => vs.clearCacheResult.map (fun _ => ((), s))
  | .DenseAppendableInRamHalf vs => vs.clearCacheResult.map (fun _ => ((), s))
  | .SparseVolatile _ => .ok ((), s)
  | .SparseMmap vs => vs.clearCacheResult.map (fun _ => ((), s))
  | .MultiDenseVolatile _ => .ok ((), s)
  | .MultiDenseAppendableMemmap vs => vs.clearCacheResult.map (fun _ => ((), s))
  | .MultiDenseAppendableMemmapByte vs => vs.clearCacheResult.map (fun _ => ((), s))
  | .MultiDenseAppendableMemmapHalf vs => vs.clearCacheResult.map (fun _ => ((), s))
  | .MultiDenseAppendableInRam vs => vs.clearCacheResult.map (fun _ => ((), s))
  | .MultiDenseAppendableInRamByte vs => vs.clearCacheResult.map (fun _ => ((), s))
  | .MultiDenseAppendableInRamHalf vs => vs.clearCacheResult.map (fun _ => ((), s))

/-! ## Full-text index: mutable inverted index and builder

`FullTextMmapIndexBuilder` and `MmapFullTextIndex` are in the provided
sources; the inverted-index types they use
(`MutableInvertedIndex`, `ImmutableInvertedIndex`, `MmapInvertedIndex`,
`Document`, `TokenSet`) and the `Tokenizer` are not, and are modeled from
the spec. -/

/-- Filesystem paths, treated as abstract names. -/
abbrev FsPath := String

/-- Text index parameters. Of its fields, only `phrase_matching :
Option<bool>` is consulted by the modeled code; the remaining tokenizer
settings are absorbed into the abstract tokenizer function. -/
structure TextIndexParams where
  phrase_matching : Option Bool
deriving DecidableEq, Repr

/-- Tokenizer, modeled as the function a configured
`Tokenizer::tokenize_doc` denotes: from a text value to the token
sequence it pushes, in order. Its construction (`Tokenizer::new`) is
outside the provided sources, so builders take the constructed function
as a parameter. -/
def Tokenizer := String → List String

/-- Document: ordered sequence of token ids (spec: "ordered sequence of
TokenId"). -/
structure Document where
  tokens : List Nat
deriving DecidableEq, Repr

/-- `Document::new`. -/
def Document.new (tokens : List Nat) : Document :=
  { tokens := tokens }

/-- Sorted insertion into a sorted `Nat` list; no-op if the element is
already present. -/
def insertSorted (x : Nat) : List Nat → List Nat
  | [] => [x]
  | y :: ys =>
      if x < y then x :: y :: ys
      else if x = y then y :: ys
      else y :: insertSorted x ys

/-- Token set: deduplicated sorted token ids per point (spec §3). -/
structure TokenSet where
  tokens : List Nat
deriving DecidableEq, Repr

/-- `TokenSet::from_iter`: deduplicating sorted collection of the ids. -/
def TokenSet.from_iter (l : List Nat) : TokenSet :=
  { tokens := l.foldl (fun acc t => insertSorted t acc) [] }

/-- Association-list lookup by key. -/
def assocFind [DecidableEq κ] : List (κ × α) → κ → Option α
  | [], _ => none
  | (k', v) :: rest, k => if k = k' then some v else assocFind rest k

/-- Association-list update: replaces the binding of `k` or appends it. -/
def assocSet [DecidableEq κ] : List (κ × α) → κ → α → List (κ × α)
  | [], k, v => [(k, v)]
  | (k', v') :: rest, k, v =>
      if k = k' then (k, v) :: rest else (k', v') :: assocSet rest k v

/-- Modelled from the spec: `MutableInvertedIndex`
(`mutable_inverted_index.rs`, not among the provided sources) holds the
insertion-ordered vocabulary (`token_id_by_str`, the token with id `i`
sits at position `i`), per-token postings (position `t` holds the sorted
point list of token `t`), the optional `point_to_doc` map (present iff
phrase matching is enabled), and the optional per-(token, point) position
lists. -/
structure MutableInvertedIndex where
  token_id_by_str : List String
  postings : List (List Nat)
  point_to_doc : Option (List (Nat × Document))
  positions : Option (List ((Nat × Nat) × List Nat))
deriving DecidableEq, Repr

/-- Modelled from the spec: `MutableInvertedIndex::new(with_positions)`
creates an empty index whose optional document and position maps are
present exactly when `with_positions` is set. -/
def MutableInvertedIndex.new (with_positions : Bool) : MutableInvertedIndex :=
  { token_id_by_str := []
    postings := []
    point_to_doc := if with_positions then some [] else none
    positions := if with_positions then some [] else none }

/-- Registration of a single token string: the id of its first
appearance if seen before, else the next dense id, with the vocabulary
and an empty postings slot appended. -/
def registerToken (m : MutableInvertedIndex) (s : String) :
    Nat × MutableInvertedIndex :=
  match m.token_id_by_str.findIdx? (fun t => t = s) with
  | some i => (i, m)
  | none =>
      (m.token_id_by_str.length,
        { m with
          token_id_by_str := m.token_id_by_str ++ [s]
          postings := m.postings ++ [[]] })

/-- Modelled from the spec: `register_tokens` assigns new ids to unseen
tokens and returns per-input ids preserving order and duplicates. -/
def MutableInvertedIndex.register_tokens (m : MutableInvertedIndex) :
    List String → List Nat × MutableInvertedIndex
  | [] => ([], m)
  | s :: rest =>
      let p := registerToken m s
      let q := p.2.register_tokens rest
      (p.1 :: q.1, q.2)

/-- Modelled from the spec: `index_tokens(id, token_set)` inserts `id`
into the postings list of each token of the set (sorted insert, no-op if
already present). The hardware-counter result is omitted; the operation
itself cannot fail. -/
def MutableInvertedIndex.index_tokens (m : MutableInvertedIndex) (id : Nat)
    (ts : TokenSet) : MutableInvertedIndex :=
  { m with
    postings :=
      ts.tokens.foldl (fun p t => p.set t (insertSorted id (p.getD t []))) m.postings }

/-- Increasing list of the positions of token `t` in the document. -/
def tokenPositions (doc : List Nat) (t : Nat) : List Nat :=
  (List.range doc.length).filter (fun i => doc.getD i 0 = t)

/-- Modelled from the spec: `index_document(id, doc)` records the
document of `id` and the per-token position lists; it is invoked only
when phrase matching is on (`point_to_doc` present) and leaves the index
unchanged otherwise. -/
def MutableInvertedIndex.index_document (m : MutableInvertedIndex) (id : Nat)
    (doc : Document) : MutableInvertedIndex :=
  match m.point_to_doc with
  | none => m
  | some pd =>
      { m with
        point_to_doc := some (assocSet pd id doc)
        positions := m.positions.map (fun ps =>
          (TokenSet.from_iter doc.tokens).tokens.foldl
            (fun acc t => assocSet acc (t, id) (tokenPositions doc.tokens t)) ps) }

/-- Modelled from the spec: `ImmutableInvertedIndex` is derived from the
mutable index by a one-shot conversion (`immutable_inverted_index.rs`,
not among the provided sources); the conversion is modeled as a snapshot
of the mutable index. -/
structure ImmutableInvertedIndex where
  ofMutable ::
  source : MutableInvertedIndex
deriving DecidableEq, Repr

/-- Modelled from the spec: an opened `MmapInvertedIndex`
(`mmap_inverted_index.rs`, not among the provided sources) is modeled by
the parameters of `open(path, populate, has_positions)` together with the
content that `create(path, &immutable)` wrote at that path. -/
structure MmapInvertedIndex where
  path : FsPath
  populate : Bool
  has_positions : Bool
  content : ImmutableInvertedIndex
deriving DecidableEq, Repr

/-- The mmap-backed full-text index (`MmapFullTextIndex`); the
`rocksdb`-gated `config` field is compiled out in the default feature
configuration. -/
structure MmapFullTextIndex where
  inverted_index : MmapInvertedIndex
  tokenizer : Tokenizer

/-- Durable storage of an immutable full-text index
(`immutable_text_index::Storage`); only the variant produced by the
modeled code is included. -/
inductive Storage where
  | Mmap (idx : MmapFullTextIndex)

/-- The immutable in-memory full-text index (`ImmutableFullTextIndex`). -/
structure ImmutableFullTextIndex where
  inverted_index : ImmutableInvertedIndex
  tokenizer : Tokenizer
  storage : Storage

/-- The full-text index variants (`FullTextIndex` in `text_index.rs`, not
among the provided sources); only the two variants produced by
`FullTextMmapIndexBuilder::finalize` are modeled. -/
inductive FullTextIndex where
  | Mmap (idx : MmapFullTextIndex)
  | Immutable (idx : ImmutableFullTextIndex)

/-- Builder state of `FullTextMmapIndexBuilder`. -/
structure FullTextMmapIndexBuilder where
  path : FsPath
  mutable_index : MutableInvertedIndex
  config : TextIndexParams
  is_on_disk : Bool
  tokenizer : Tokenizer

/-- `FullTextMmapIndexBuilder::new`: the mutable index is created with
`with_positions = config.phrase_matching.unwrap_or_default()`. The
tokenizer built by `Tokenizer::new(&config)` is passed in as the function
it denotes. -/
def FullTextMmapIndexBuilder.new (path : FsPath) (config : TextIndexParams)
    (is_on_disk : Bool) (tokenizer : Tokenizer) : FullTextMmapIndexBuilder :=
  { path := path
    mutable_index := MutableInvertedIndex.new (config.phrase_matching.getD false)
    config := config
    is_on_disk := is_on_disk
    tokenizer := tokenizer }

/-- `FullTextMmapIndexBuilder::add_many` (the `ValueIndexer` impl): early
return on empty `values`; otherwise tokenize every value in order into
`str_tokens`, register the tokens, index the document when
`point_to_doc` is present, and index the token set. -/
def FullTextMmapIndexBuilder.add_many (b : FullTextMmapIndexBuilder) (id : Nat)
    (values : List String) : OperationResult FullTextMmapIndexBuilder :=
  if values.isEmpty then .ok b
  else
    let str_tokens := values.foldl (fun acc value => acc ++ b.tokenizer value) []
    let r := b.mutable_index.register_tokens str_tokens
    let tokens := r.1
    let idx1 := r.2
    let idx2 :=
      if idx1.point_to_doc.isSome then idx1.index_document id (Document.new tokens)
      else idx1
    let token_set := TokenSet.from_iter tokens
    let idx3 := idx2.index_tokens id token_set
    .ok { b with mutable_index := idx3 }

/-- `FullTextMmapIndexBuilder::finalize` (the `FieldIndexBuilderTrait`
impl): converts the mutable index to the immutable one, writes the mmap
form (`create_dir_all` and `MmapInvertedIndex::create`, whose disk
effects are modeled by carrying the written content), reopens it with
`populate = !is_on_disk` and `has_positions =
config.phrase_matching.unwrap_or_default()`, and wraps it according to
`is_on_disk`. -/
def FullTextMmapIndexBuilder.finalize (b : FullTextMmapIndexBuilder) :
    OperationResult FullTextIndex :=
  let immutable := ImmutableInvertedIndex.ofMutable b.mutable_index
  let populate := !b.is_on_disk
  let has_positions := b.config.phrase_matching.getD false
  let inverted_index : MmapInvertedIndex :=
    { path := b.path
      populate := populate
      has_positions := has_positions
      content := immutable }
  let mmap_index : MmapFullTextIndex :=
    { inverted_index := inverted_index, tokenizer := b.tokenizer }
  .ok (if b.is_on_disk then FullTextIndex.Mmap mmap_index
    else FullTextIndex.Immutable
      { inverted_index := immutable
        tokenizer := b.tokenizer
        storage := Storage.Mmap mmap_index })

/-- Document stored for point `id` in the builder's mutable index, if
any. -/
def FullTextMmapIndexBuilder.storedDocument (b : FullTextMmapIndexBuilder)
    (id : Nat) : Option Document :=
  b.mutable_index.point_to_doc.bind (fun pd => assocFind pd id)

/-! ## Helper lemmas -/

/-- Registering one token never touches the optional document map. -/
theorem registerToken_point_to_doc (m : MutableInvertedIndex) (s : String) :
    (registerToken m s).2.point_to_doc = m.point_to_doc := by
  unfold registerToken
  cases m.token_id_by_str.findIdx? (fun t => t = s) <;> rfl

/-- Registering a token list never touches the optional document map. -/
theorem register_tokens_point_to_doc (strs : List String) (m : MutableInvertedIndex) :
    (m.register_tokens strs).2.point_to_doc = m.point_to_doc := by
  induction strs generalizing m with
  | nil => rfl
  | cons s rest ih =>
      show ((registerToken m s).2.register_tokens rest).2.point_to_doc = m.point_to_doc
      rw [ih, registerToken_point_to_doc]

/-- Indexing a token set only touches the postings. -/
theorem index_tokens_point_to_doc (m : MutableInvertedIndex) (id : Nat) (ts : TokenSet) :
    (m.index_tokens id ts).point_to_doc = m.point_to_doc := rfl

/-- Lookup after update at the same key. -/
theorem assocFind_assocSet_self [DecidableEq κ] (l : List (κ × α)) (k : κ) (v : α) :
    assocFind (assocSet l k v) k = some v := by
  induction l with
  | nil => simp [assocSet, assocFind]
  | cons p rest ih =>
      obtain ⟨k', v'⟩ := p
      by_cases h : k = k'
      · simp [assocSet, assocFind, h]
      · simp [assocSet, assocFind, h, ih]

/-- Effect of the token-registration / document-indexing / token-indexing
pipeline of `add_many` on the stored document of the point: a document
for `id` is present afterwards exactly when the optional document map was
present before. -/
theorem pipeline_point_to_doc (M : MutableInvertedIndex) (id : Nat) (strs : List String) :
    (((if (M.register_tokens strs).2.point_to_doc.isSome
        then (M.register_tokens strs).2.index_document id
          (Document.new (M.register_tokens strs).1)
        else (M.register_tokens strs).2).index_tokens id
          (TokenSet.from_iter (M.register_tokens strs).1)).point_to_doc.bind
      (fun pd => assocFind pd id)).isSome = M.point_to_doc.isSome := by
  have h1 := register_tokens_point_to_doc strs M
  cases hM : M.point_to_doc with
  | none =>
      have hnone : (M.register_tokens strs).2.point_to_doc = none := by rw [h1, hM]
      simp [index_tokens_point_to_doc, hnone]
  | some pd =>
      have hsome : (M.register_tokens strs).2.point_to_doc = some pd := by rw [h1, hM]
      simp [index_tokens_point_to_doc, hsome, MutableInvertedIndex.index_document,
        assocFind_assocSet_self]

/-! ## Claim theorems -/

/-- C1: for every vector storage state, `available_vector_count()` equals
`total_vector_count()` minus `deleted_vector_count()`, computed with
saturating subtraction, so the result is 0 whenever the deleted count
exceeds the total count (and the exact difference otherwise). -/
theorem claim_C1_available_count_saturating (s : VectorStorage) :
    s.available_vector_count = s.total_vector_count - s.deleted_vector_count ∧
    (s.total_vector_count < s.deleted_vector_count → s.available_vector_count = 0) ∧
    (s.deleted_vector_count ≤ s.total_vector_count →
      s.available_vector_count + s.deleted_vector_count = s.total_vector_count) := by
  refine ⟨rfl, ?_, ?_⟩
  · intro h
    exact Nat.sub_eq_zero_of_le h.le
  · intro h
    exact Nat.sub_add_cancel h

/-- Witness for C1 at the concrete storages ⟨2, 5⟩ (stale bitmap,
saturates to 0) and ⟨7, 3⟩ (exact difference). -/
theorem claim_C1_available_count_saturating_witness :
    VectorStorage.available_vector_count ⟨2, 5⟩ = 0 ∧
    VectorStorage.available_vector_count ⟨7, 3⟩ + 3 = 7 :=
  ⟨(claim_C1_available_count_saturating ⟨2, 5⟩).2.1 (by decide),
   (claim_C1_available_count_saturating ⟨7, 3⟩).2.2 (by decide)⟩

/-- C9: calling `add_many` with an empty values vector returns `Ok(())`
and leaves the builder, in particular its mutable inverted index,
completely unchanged. -/
theorem claim_C9_add_many_empty_noop (b : FullTextMmapIndexBuilder) (id : Nat) :
    b.add_many id [] = .ok b := rfl

/-- C6: for every dense vector storage, the default trait method
`size_of_available_vectors_in_bytes()` equals `available_vector_count()`
times `vector_dim()` times the byte size of the element type `T`. -/
theorem claim_C6_dense_size_in_bytes (T : Type) [ElemSize T] (s : DenseVectorStorage T) :
    s.size_of_available_vectors_in_bytes =
      s.toVectorStorage.available_vector_count * s.vector_dim * ElemSize.bytes T ∧
    s.size_of_available_vectors_in_bytes =
      (s.total_vector_count - s.deleted_vector_count) * s.vector_dim * ElemSize.bytes T :=
  ⟨rfl, rfl⟩

/-- C4: with a sufficiently large output buffer, `get_dense_batch(K)`
equals the pointwise map of `get_dense` over `K`: same length, and the
k-th slice equals `get_dense(K[k])` for every index k. -/
theorem claim_C4_get_dense_batch_pointwise (T : Type) (s : DenseVectorStorage T)
    (keys : List Nat) (buf_len : Nat) (h : keys.length ≤ buf_len) :
    s.get_dense_batch keys buf_len = s.get_dense_batch_spec keys ∧
    (s.get_dense_batch keys buf_len).length = keys.length ∧
    ∀ k, k < keys.length →
      (s.get_dense_batch keys buf_len).get? k = (keys.get? k).map s.get_dense := by
  have he : s.get_dense_batch keys buf_len = keys.map s.get_dense := by
    unfold DenseVectorStorage.get_dense_batch maybe_uninit_fill_from
    exact List.take_of_length_le (by simpa using h)
  refine ⟨he, by simp [he], ?_⟩
  intro k _
  simp [he]

/-- Concrete two-point dense f32 storage of dimension 1 for the C4
witness; point `k` holds the slice `[k]`. -/
def c4ExampleStorage : DenseVectorStorage VectorElementType :=
  { total_vector_count := 2
    deleted_vector_count := 0
    vector_dim := 1
    get_dense := fun k => [⟨(k : Rat)⟩] }

/-- Witness for C4: batch read of keys [0, 1] into a buffer of length 2. -/
theorem claim_C4_get_dense_batch_pointwise_witness :
    c4ExampleStorage.get_dense_batch [0, 1] 2 = c4ExampleStorage.get_dense_batch_spec [0, 1] ∧
    (c4ExampleStorage.get_dense_batch [0, 1] 2).length = 2 :=
  ⟨(claim_C4_get_dense_batch_pointwise VectorElementType c4ExampleStorage [0, 1] 2 (by decide)).1,
   (claim_C4_get_dense_batch_pointwise VectorElementType c4ExampleStorage [0, 1] 2 (by decide)).2.1⟩

/-- C2: `finalize` converts the mutable inverted index to the immutable
one, writes the mmap form, reopens it with populate flag equal to the
negation of `is_on_disk` (and `has_positions` from the config), and
returns the mmap-backed variant when `is_on_disk` is true, otherwise the
immutable in-memory variant holding the converted index with the mmap
form attached as its durable storage. -/
theorem claim_C2_finalize_shape (b : FullTextMmapIndexBuilder) :
    ∃ mi : MmapFullTextIndex,
      mi.inverted_index.populate = !b.is_on_disk ∧
      mi.inverted_index.has_positions = b.config.phrase_matching.getD false ∧
      mi.inverted_index.path = b.path ∧
      mi.inverted_index.content = ImmutableInvertedIndex.ofMutable b.mutable_index ∧
      b.finalize = Except.ok
        (if b.is_on_disk then FullTextIndex.Mmap mi
         else FullTextIndex.Immutable
           { inverted_index := ImmutableInvertedIndex.ofMutable b.mutable_index
             tokenizer := b.tokenizer
             storage := Storage.Mmap mi }) :=
  ⟨{ inverted_index :=
      { path := b.path
        populate := !b.is_on_disk
        has_positions := b.config.phrase_matching.getD false
        content := ImmutableInvertedIndex.ofMutable b.mutable_index }
     tokenizer := b.tokenizer },
   rfl, rfl, rfl, rfl, rfl⟩

/-- C3: documents are materialized iff phrase matching is enabled:
`new` creates the mutable index with the document map present exactly
when `config.phrase_matching` is `Some(true)`, and for non-empty values
`add_many` records a document for the point exactly when the document map
is present. -/
theorem claim_C3_phrase_matching_gates_documents :
    (∀ (path : FsPath) (config : TextIndexParams) (is_on_disk : Bool) (tok : Tokenizer),
      (FullTextMmapIndexBuilder.new path config is_on_disk
          tok).mutable_index.point_to_doc.isSome = true
        ↔ config.phrase_matching = some true) ∧
    (∀ (b : FullTextMmapIndexBuilder) (id : Nat) (values : List String),
      values ≠ [] →
      ∃ b', b.add_many id values = .ok b' ∧
        (b'.storedDocument id).isSome = b.mutable_index.point_to_doc.isSome) := by
  constructor
  · intro path config is_on_disk tok
    cases h : config.phrase_matching with
    | none => simp [FullTextMmapIndexBuilder.new, MutableInvertedIndex.new, h]
    | some bv =>
        cases bv <;> simp [FullTextMmapIndexBuilder.new, MutableInvertedIndex.new, h]
  · intro b id values hne
    match values with
    | [] => exact absurd rfl hne
    | v :: vs => exact ⟨_, rfl, pipeline_point_to_doc b.mutable_index id _⟩

/-- Concrete builder with phrase matching enabled for the C3 witness. -/
def c3ExampleBuilder : FullTextMmapIndexBuilder :=
  FullTextMmapIndexBuilder.new "idx" { phrase_matching := some true } true (fun s => [s])

/-- Witness for C3: the phrase-matching builder has the document map, and
adding the single value "hello" for point 0 records a document for it. -/
theorem claim_C3_phrase_matching_gates_documents_witness :
    (c3ExampleBuilder.mutable_index.point_to_doc.isSome = true
      ↔ ({ phrase_matching := some true } : TextIndexParams).phrase_matching = some true) ∧
    ∃ b', c3ExampleBuilder.add_many 0 ["hello"] = .ok b' ∧
      (b'.storedDocument 0).isSome = c3ExampleBuilder.mutable_index.point_to_doc.isSome :=
  ⟨claim_C3_phrase_matching_gates_documents.1 "idx" { phrase_matching := some true } true
      (fun s => [s]),
   claim_C3_phrase_matching_gates_documents.2 c3ExampleBuilder 0 ["hello"]
      (by simp)⟩

/-- C5: `size_of_available_vectors_in_bytes` on the enum never returns a
value for the `SparseMmap` variant (the arm is `unreachable!`, modeled as
`none`) and returns the sub-storage's size for every other variant. -/
theorem claim_C5_sparse_mmap_size_unreachable :
    (∀ v, (VectorStorageEnum.SparseMmap v).size_of_available_vectors_in_bytes = none) ∧
    (∀ v, (VectorStorageEnum.DenseVolatile v).size_of_available_vectors_in_bytes
      = some v.size_of_available_vectors_in_bytes) ∧
    (∀ v, (VectorStorageEnum.DenseMemmap v).size_of_available_vectors_in_bytes
      = some v.size_of_available_vectors_in_bytes) ∧
    (∀ v, (VectorStorageEnum.DenseMemmapByte v).size_of_available_vectors_in_bytes
      = some v.size_of_available_vectors_in_bytes) ∧
    (∀ v, (VectorStorageEnum.DenseMemmapHalf v).size_of_available_vectors_in_bytes
      = some v.size_of_available_vectors_in_bytes) ∧
    (∀ v, (VectorStorageEnum.DenseAppendableMemmap v).size_of_available_vectors_in_bytes
      = some v.size_of_available_vectors_in_bytes) ∧
    (∀ v, (VectorStorageEnum.DenseAppendableMemmapByte v).size_of_available_vectors_in_bytes
      = some v.size_of_available_vectors_in_bytes) ∧
    (∀ v, (VectorStorageEnum.DenseAppendableMemmapHalf v).size_of_available_vectors_in_bytes
      = some v.size_of_available_vectors_in_bytes) ∧
    (∀ v, (VectorStorageEnum.DenseAppendableInRam v).size_of_available_vectors_in_bytes
      = some v.size_of_available_vectors_in_bytes) ∧
    (∀ v, (VectorStorageEnum.DenseAppendableInRamByte v).size_of_available_vectors_in_bytes
      = some v.size_of_available_vectors_in_bytes) ∧
    (∀ v, (VectorStorageEnum.DenseAppendableInRamHalf v).size_of_available_vectors_in_bytes
      = some v.size_of_available_vectors_in_bytes) ∧
    (∀ v, (VectorStorageEnum.SparseVolatile v).size_of_available_vectors_in_bytes
      = some v.size_of_available_vectors_in_bytes) ∧
    (∀ v, (VectorStorageEnum.MultiDenseVolatile v).size_of_available_vectors_in_bytes
      = some v.size_of_available_vectors_in_bytes) ∧
    (∀ v, (VectorStorageEnum.MultiDenseAppendableMemmap v).size_of_available_vectors_in_bytes
      = some v.size_of_available_vectors_in_bytes) ∧
    (∀ v, (VectorStorageEnum.MultiDenseAppendableMemmapByte v).size_of_available_vectors_in_bytes
      = some v.size_of_available_vectors_in_bytes) ∧
    (∀ v, (VectorStorageEnum.MultiDenseAppendableMemmapHalf v).size_of_available_vectors_in_bytes
      = some v.size_of_available_vectors_in_bytes) ∧
    (∀ v, (VectorStorageEnum.MultiDenseAppendableInRam v).size_of_available_vectors_in_bytes
      = some v.size_of_available_vectors_in_bytes) ∧
    (∀ v, (VectorStorageEnum.MultiDenseAppendableInRamByte v).size_of_available_vectors_in_bytes
      = some v.size_of_available_vectors_in_bytes) ∧
    (∀ v, (VectorStorageEnum.MultiDenseAppendableInRamHalf v).size_of_available_vectors_in_bytes
      = some v.size_of_available_vectors_in_bytes) :=
  ⟨fun _ => rfl, fun _ => rfl, fun _ => rfl, fun _ => rfl, fun _ => rfl, fun _ => rfl,
   fun _ => rfl, fun _ => rfl, fun _ => rfl, fun _ => rfl, fun _ => rfl, fun _ => rfl,
   fun _ => rfl, fun _ => rfl, fun _ => rfl, fun _ => rfl, fun _ => rfl, fun _ => rfl,
   fun _ => rfl⟩

/-- C7: `default_vector()` matches the storage shape: an all-ones dense
vector of length `vector_dim()` for every dense variant, the default
(empty) sparse vector for every sparse variant, and a placeholder
multi-dense vector of the configured inner dimension for every
multi-dense variant. -/
theorem claim_C7_default_vector_shape :
    (∀ v, (VectorStorageEnum.DenseVolatile v).default_vector
      = .dense (List.replicate v.vector_dim 1)) ∧
    (∀ v, (VectorStorageEnum.DenseMemmap v).default_vector
      = .dense (List.replicate v.vector_dim 1)) ∧
    (∀ v, (VectorStorageEnum.DenseMemmapByte v).default_vector
      = .dense (List.replicate v.vector_dim 1)) ∧
    (∀ v, (VectorStorageEnum.DenseMemmapHalf v).default_vector
      = .dense (List.replicate v.vector_dim 1)) ∧
    (∀ v, (VectorStorageEnum.DenseAppendableMemmap v).default_vector
      = .dense (List.replicate v.vector_dim 1)) ∧
    (∀ v, (VectorStorageEnum.DenseAppendableMemmapByte v).default_vector
      = .dense (List.replicate v.vector_dim 1)) ∧
    (∀ v, (VectorStorageEnum.DenseAppendableMemmapHalf v).default_vector
      = .dense (List.replicate v.vector_dim 1)) ∧
    (∀ v, (VectorStorageEnum.DenseAppendableInRam v).default_vector
      = .dense (List.replicate v.vector_dim 1)) ∧
    (∀ v, (VectorStorageEnum.DenseAppendableInRamByte v).default_vector
      = .dense (List.replicate v.vector_dim 1)) ∧
    (∀ v, (VectorStorageEnum.DenseAppendableInRamHalf v).default_vector
      = .dense (List.replicate v.vector_dim 1)) ∧
    (∀ v, (VectorStorageEnum.SparseVolatile v).default_vector
      = .sparse SparseVector.default) ∧
    (∀ v, (VectorStorageEnum.SparseMmap v).default_vector
      = .sparse SparseVector.default) ∧
    (∀ v, (VectorStorageEnum.MultiDenseVolatile v).default_vector
      = .multiDense (MultiDenseVectorInternal.placeholder v.vector_dim)) ∧
    (∀ v, (VectorStorageEnum.MultiDenseAppendableMemmap v).default_vector
      = .multiDense (MultiDenseVectorInternal.placeholder v.vector_dim)) ∧
    (∀ v, (VectorStorageEnum.MultiDenseAppendableMemmapByte v).default_vector
      = .multiDense (MultiDenseVectorInternal.placeholder v.vector_dim)) ∧
    (∀ v, (VectorStorageEnum.MultiDenseAppendableMemmapHalf v).default_vector
      = .multiDense (MultiDenseVectorInternal.placeholder v.vector_dim)) ∧
    (∀ v, (VectorStorageEnum.MultiDenseAppendableInRam v).default_vector
      = .multiDense (MultiDenseVectorInternal.placeholder v.vector_dim)) ∧
    (∀ v, (VectorStorageEnum.MultiDenseAppendableInRamByte v).default_vector
      = .multiDense (MultiDenseVectorInternal.placeholder v.vector_dim)) ∧
    (∀ v, (VectorStorageEnum.MultiDenseAppendableInRamHalf v).default_vector
      = .multiDense (MultiDenseVectorInternal.placeholder v.vector_dim)) :=
  ⟨fun _ => rfl, fun _ => rfl, fun _ => rfl, fun _ => rfl, fun _ => rfl, fun _ => rfl,
   fun _ => rfl, fun _ => rfl, fun _ => rfl, fun _ => rfl, fun _ => rfl, fun _ => rfl,
   fun _ => rfl, fun _ => rfl, fun _ => rfl, fun _ => rfl, fun _ => rfl, fun _ => rfl,
   fun _ => rfl⟩

/-- C10: `try_multi_vector_config` returns `None` for every dense and
sparse variant and `Some` of the backing's multi-vector configuration for
every multi-dense variant. -/
theorem claim_C10_try_multi_vector_config :
    (∀ v, (VectorStorageEnum.DenseVolatile v).try_multi_vector_config = none) ∧
    (∀ v, (VectorStorageEnum.DenseMemmap v).try_multi_vector_config = none) ∧
    (∀ v, (VectorStorageEnum.DenseMemmapByte v).try_multi_vector_config = none) ∧
    (∀ v, (VectorStorageEnum.DenseMemmapHalf v).try_multi_vector_config = none) ∧
    (∀ v, (VectorStorageEnum.DenseAppendableMemmap v).try_multi_vector_config = none) ∧
    (∀ v, (VectorStorageEnum.DenseAppendableMemmapByte v).try_multi_vector_config = none) ∧
    (∀ v, (VectorStorageEnum.DenseAppendableMemmapHalf v).try_multi_vector_config = none) ∧
    (∀ v, (VectorStorageEnum.DenseAppendableInRam v).try_multi_vector_config = none) ∧
    (∀ v, (VectorStorageEnum.DenseAppendableInRamByte v).try_multi_vector_config = none) ∧
    (∀ v, (VectorStorageEnum.DenseAppendableInRamHalf v).try_multi_vector_config = none) ∧
    (∀ v, (VectorStorageEnum.SparseVolatile v).try_multi_vector_config = none) ∧
    (∀ v, (VectorStorageEnum.SparseMmap v).try_multi_vector_config = none) ∧
    (∀ v, (VectorStorageEnum.MultiDenseVolatile v).try_multi_vector_config
      = some v.multi_vector_config) ∧
    (∀ v, (VectorStorageEnum.MultiDenseAppendableMemmap v).try_multi_vector_config
      = some v.multi_vector_config) ∧
    (∀ v, (VectorStorageEnum.MultiDenseAppendableMemmapByte v).try_multi_vector_config
      = some v.multi_vector_config) ∧
    (∀ v, (VectorStorageEnum.MultiDenseAppendableMemmapHalf v).try_multi_vector_config
      = some v.multi_vector_config) ∧
    (∀ v, (VectorStorageEnum.MultiDenseAppendableInRam v).try_multi_vector_config
      = some v.multi_vector_config) ∧
    (∀ v, (VectorStorageEnum.MultiDenseAppendableInRamByte v).try_multi_vector_config
      = some v.multi_vector_config) ∧
    (∀ v, (VectorStorageEnum.MultiDenseAppendableInRamHalf v).try_multi_vector_config
      = some v.multi_vector_config) :=
  ⟨fun _ => rfl, fun _ => rfl, fun _ => rfl, fun _ => rfl, fun _ => rfl, fun _ => rfl,
   fun _ => rfl, fun _ => rfl, fun _ => rfl, fun _ => rfl, fun _ => rfl, fun _ => rfl,
   fun _ => rfl, fun _ => rfl, fun _ => rfl, fun _ => rfl, fun _ => rfl, fun _ => rfl,
   fun _ => rfl⟩

/-- C8: `populate()` and `clear_cache()` return `Ok(())` and leave the
state unchanged for every volatile variant, and delegate to the backing
for every memory-mapped and in-RAM-persisted variant. -/
theorem claim_C8_populate_clear_cache_volatile_noop :
    (∀ v, (VectorStorageEnum.DenseVolatile v).populate
      = .ok ((), VectorStorageEnum.DenseVolatile v)) ∧
    (∀ v, (VectorStorageEnum.SparseVolatile v).populate
      = .ok ((), VectorStorageEnum.SparseVolatile v)) ∧
    (∀ v, (VectorStorageEnum.MultiDenseVolatile v).populate
      = .ok ((), VectorStorageEnum.MultiDenseVolatile v)) ∧
    (∀ v, (VectorStorageEnum.DenseVolatile v).clear_cache
      = .ok ((), VectorStorageEnum.DenseVolatile v)) ∧
    (∀ v, (VectorStorageEnum.SparseVolatile v).clear_cache
      = .ok ((), VectorStorageEnum.SparseVolatile v)) ∧
    (∀ v, (VectorStorageEnum.MultiDenseVolatile v).clear_cache
      = .ok ((), VectorStorageEnum.MultiDenseVolatile v)) ∧
    (∀ v, (VectorStorageEnum.DenseMemmap v).populate
      = v.populateResult.map (fun _ => ((), VectorStorageEnum.DenseMemmap v))) ∧
    (∀ v, (VectorStorageEnum.DenseMemmapByte v).populate
      = v.populateResult.map (fun _ => ((), VectorStorageEnum.DenseMemmapByte v))) ∧
    (∀ v, (VectorStorageEnum.DenseMemmapHalf v).populate
      = v.populateResult.map (fun _ => ((), VectorStorageEnum.DenseMemmapHalf v))) ∧
    (∀ v, (VectorStorageEnum.DenseAppendableMemmap v).populate
      = v.populateResult.map (fun _ => ((), VectorStorageEnum.DenseAppendableMemmap v))) ∧
    (∀ v, (VectorStorageEnum.DenseAppendableMemmapByte v).populate
      = v.populateResult.map (fun _ => ((), VectorStorageEnum.DenseAppendableMemmapByte v))) ∧
    (∀ v, (VectorStorageEnum.DenseAppendableMemmapHalf v).populate
      = v.populateResult.map (fun _ => ((), VectorStorageEnum.DenseAppendableMemmapHalf v))) ∧
    (∀ v, (VectorStorageEnum.DenseAppendableInRam v).populate
      = v.populateResult.map (fun _ => ((), VectorStorageEnum.DenseAppendableInRam v))) ∧
    (∀ v, (VectorStorageEnum.DenseAppendableInRamByte v).populate
      = v.populateResult.map (fun _ => ((), VectorStorageEnum.DenseAppendableInRamByte v))) ∧
    (∀ v, (VectorStorageEnum.DenseAppendableInRamHalf v).populate
      = v.populateResult.map (fun _ => ((), VectorStorageEnum.DenseAppendableInRamHalf v))) ∧
    (∀ v, (VectorStorageEnum.SparseMmap v).populate
      = v.populateResult.map (fun _ => ((), VectorStorageEnum.SparseMmap v))) ∧
    (∀ v, (VectorStorageEnum.MultiDenseAppendableMemmap v).populate
      = v.populateResult.map (fun _ => ((), VectorStorageEnum.MultiDenseAppendableMemmap v))) ∧
    (∀ v, (VectorStorageEnum.MultiDenseAppendableMemmapByte v).populate
      = v.populateResult.map
          (fun _ => ((), VectorStorageEnum.MultiDenseAppendableMemmapByte v))) ∧
    (∀ v, (VectorStorageEnum.MultiDenseAppendableMemmapHalf v).populate
      = v.populateResult.map
          (fun _ => ((), VectorStorageEnum.MultiDenseAppendableMemmapHalf v))) ∧
    (∀ v, (VectorStorageEnum.MultiDenseAppendableInRam v).populate
      = v.populateResult.map (fun _ => ((), VectorStorageEnum.MultiDenseAppendableInRam v))) ∧
    (∀ v, (VectorStorageEnum.MultiDenseAppendableInRamByte v).populate
      = v.populateResult.map
          (fun _ => ((), VectorStorageEnum.MultiDenseAppendableInRamByte v))) ∧
    (∀ v, (VectorStorageEnum.MultiDenseAppendableInRamHalf v).populate
      = v.populateResult.map
          (fun _ => ((), VectorStorageEnum.MultiDenseAppendableInRamHalf v))) ∧
    (∀ v, (VectorStorageEnum.DenseMemmap v).clear_cache
      = v.clearCacheResult.map (fun _ => ((), VectorStorageEnum.DenseMemmap v))) ∧
    (∀ v, (VectorStorageEnum.DenseMemmapByte v).clear_cache
      = v.clearCacheResult.map (fun _ => ((), VectorStorageEnum.DenseMemmapByte v))) ∧
    (∀ v, (VectorStorageEnum.DenseMemmapHalf v).clear_cache
      = v.clearCacheResult.map (fun _ => ((), VectorStorageEnum.DenseMemmapHalf v))) ∧
    (∀ v, (VectorStorageEnum.DenseAppendableMemmap v).clear_cache
      = v.clearCacheResult.map (fun _ => ((), VectorStorageEnum.DenseAppendableMemmap v))) ∧
    (∀ v, (VectorStorageEnum.DenseAppendableMemmapByte v).clear_cache
      = v.clearCacheResult.map (fun _ => ((), VectorStorageEnum.DenseAppendableMemmapByte v))) ∧
    (∀ v, (VectorStorageEnum.DenseAppendableMemmapHalf v).clear_cache
      = v.clearCacheResult.map (fun _ => ((), VectorStorageEnum.DenseAppendableMemmapHalf v))) ∧
    (∀ v, (VectorStorageEnum.DenseAppendableInRam v).clear_cache
      = v.clearCacheResult.map (fun _ => ((), VectorStorageEnum.DenseAppendableInRam v))) ∧
    (∀ v, (VectorStorageEnum.DenseAppendableInRamByte v).clear_cache
      = v.clearCacheResult.map (fun _ => ((), VectorStorageEnum.DenseAppendableInRamByte v))) ∧
    (∀ v, (VectorStorageEnum.DenseAppendableInRamHalf v).clear_cache
      = v.clearCacheResult.map (fun _ => ((), VectorStorageEnum.DenseAppendableInRamHalf v))) ∧
    (∀ v, (VectorStorageEnum.SparseMmap v).clear_cache
      = v.clearCacheResult.map (fun _ => ((), VectorStorageEnum.SparseMmap v))) ∧
    (∀ v, (VectorStorageEnum.MultiDenseAppendableMemmap v).clear_cache
      = v.clearCacheResult.map (fun _ => ((), VectorStorageEnum.MultiDenseAppendableMemmap v))) ∧
    (∀ v, (VectorStorageEnum.MultiDenseAppendableMemmapByte v).clear_cache
      = v.clearCacheResult.map
          (fun _ => ((), VectorStorageEnum.MultiDenseAppendableMemmapByte v))) ∧
    (∀ v, (VectorStorageEnum.MultiDenseAppendableMemmapHalf v).clear_cache
      = v.clearCacheResult.map
          (fun _ => ((), VectorStorageEnum.MultiDenseAppendableMemmapHalf v))) ∧
    (∀ v, (VectorStorageEnum.MultiDenseAppendableInRam v).clear_cache
      = v.clearCacheResult.map (fun _ => ((), VectorStorageEnum.MultiDenseAppendableInRam v))) ∧
    (∀ v, (VectorStorageEnum.MultiDenseAppendableInRamByte v).clear_cache
      = v.clearCacheResult.map
          (fun _ => ((), VectorStorageEnum.MultiDenseAppendableInRamByte v))) ∧
    (∀ v, (VectorStorageEnum.MultiDenseAppendableInRamHalf v).clear_cache
      = v.clearCacheResult.map
          (fun _ => ((), VectorStorageEnum.MultiDenseAppendableInRamHalf v))) :=
  ⟨fun _ => rfl, fun _ => rfl, fun _ => rfl, fun _ => rfl, fun _ => rfl, fun _ => rfl,
   fun _ => rfl, fun _ => rfl, fun _ => rfl, fun _ => rfl, fun _ => rfl, fun _ => rfl,
   fun _ => rfl, fun _ => rfl, fun _ => rfl, fun _ => rfl, fun _ => rfl, fun _ => rfl,
   fun _ => rfl, fun _ => rfl, fun _ => rfl, fun _ => rfl, fun _ => rfl, fun _ => rfl,
   fun _ => rfl, fun _ => rfl, fun _ => rfl, fun _ => rfl, fun _ => rfl, fun _ => rfl,
   fun _ => rfl, fun _ => rfl, fun _ => rfl, fun _ => rfl, fun _ => rfl, fun _ => rfl,
   fun _ => rfl, fun _ => rfl⟩
